import Mathlib

/-!
Shallow embedding of the macOS cursor-state synchronization subsystem of
rustdesk (`src/platform/macos.rs`, functions `get_cursor`, `reset_input_cache`,
`get_cursor_id`, `get_cursor_data` and the process-wide `LATEST_SEED` cell).

Modelling conventions:
* The `f64` (`CGFloat`) quantities supplied by the OS (image sizes, hotspot
  coordinates, color components) are modelled as exact rationals; `f64`
  rounding is not modelled.  The non-finite values that `f64` division by
  zero produces (`±∞`, `NaN`) are modelled exactly where they arise, in
  `divCastUsize`.
* Rust numeric casts `as usize`, `as u64`, `as u8`, `as i32` on `f64` are the
  saturating casts of Rust (truncate toward zero, clamp to the target range,
  `NaN` to 0).  `usize`/`u64` results are `Nat`, `i32` results are `Int`.
* The ObjC world reached through `msg_send!` is an explicit environment value
  (`CursorEnv`): nullable objects are `Option`s, `colorAtX:y:` is a function
  returning `Option NSColorVal`.
* Fallible Rust code (`ResultType`, `bail!`) is `Except CErr`, and checked
  machine-arithmetic overflow/underflow (`usize` addition and subtraction,
  which panic under Rust's overflow checks) is the distinct error value
  `CErr.panicked`.
* The process-wide mutable cell `static mut LATEST_SEED: i32` is threaded as
  an explicit `Int` state parameter through `get_cursor` / `reset_input_cache`.
-/

namespace RustdeskCursor

/-- Failure of one of the cursor operations: either an explicit `bail!` with
its message, or a Rust arithmetic overflow/underflow caught by overflow
checks. -/
inductive CErr where
  | bail (msg : String)
  | panicked
deriving DecidableEq

/-- An RGBA color as returned by `[NSColor redComponent]` etc., each channel
nominally in `[0, 1]`. -/
structure NSColorVal where
  r : ℚ
  g : ℚ
  b : ℚ
  a : ℚ
deriving DecidableEq

/-- An `NSBitmapImageRep`: its reported size (a pair of `CGFloat`s, width then
height) and its `colorAtX:y:` query; `none` models a `nil` color. -/
structure NSBitmapRep where
  size : ℚ × ℚ
  colorAt : Nat → Nat → Option NSColorVal

/-- An `NSImage` as the cursor code observes it: its logical `size`, whether
`TIFFRepresentation` returns `nil` (`tiffNil`), the `NSBitmapImageRep` that
`imageRepWithData:` builds from the TIFF data (`none` models a `nil` result),
and the `representations` array (`none` models a `nil` array). -/
structure NSImage where
  size : ℚ × ℚ
  tiffNil : Bool
  tiffRep : Option NSBitmapRep
  reps : Option (List NSBitmapRep)

/-- An `NSCursor` handle: its `hotSpot` and its `image` (`none` models `nil`). -/
structure NSCursorHandle where
  hotSpot : ℚ × ℚ
  image : Option NSImage

/-- Everything the OS supplies during one call: the `CGSCurrentCursorSeed()`
value and the `[NSCursor currentSystemCursor]` result (`none` models `nil`). -/
structure CursorEnv where
  seed : Int
  cursor : Option NSCursorHandle

/-- The exported cursor snapshot; only the fields `get_cursor_data` sets are
modelled (`..Default::default()` zeroes the rest).  `id` is the `u64`
identity, `colors` the RGBA byte buffer, `hotx`/`hoty`/`width`/`height` the
`i32` metadata. -/
structure CursorData where
  id : Nat
  colors : List Nat
  hotx : Int
  hoty : Int
  width : Int
  height : Int
deriving DecidableEq

/-- `usize::MAX` on the 64-bit targets macOS builds use. -/
def usizeMax : Nat := 2 ^ 64 - 1

/-- `u64::MAX`. -/
def u64Max : Nat := 2 ^ 64 - 1

/-- `i32::MAX`. -/
def i32Max : Int := 2 ^ 31 - 1

/-- `i32::MIN`. -/
def i32Min : Int := -(2 ^ 31)

/-- Truncation toward zero of an exact rational, as `f64`-to-integer casts
truncate. -/
def truncRat (q : ℚ) : Int := if q < 0 then -((-q).floor) else q.floor

/-- Rust `f64 as usize` on an exact finite value: truncate toward zero and
saturate into `[0, usize::MAX]`. -/
def ratToUsize (q : ℚ) : Nat := min (truncRat q).toNat usizeMax

/-- Rust `f64 as u64` on an exact finite value. -/
def ratToU64 (q : ℚ) : Nat := min (truncRat q).toNat u64Max

/-- Rust `f64 as u8` on an exact finite value. -/
def ratToU8 (q : ℚ) : Nat := min (truncRat q).toNat 255

/-- Rust `f64 as i32` on an exact finite value. -/
def ratToI32 (q : ℚ) : Int := max i32Min (min i32Max (truncRat q))

/-- `(a / b) as usize` where the division is `f64` division of exact finite
values: when `b = 0` the quotient is `+∞` (cast saturates to `usize::MAX`)
for `a > 0`, and `-∞` or `NaN` (both cast to `0`) otherwise. -/
def divCastUsize (a b : ℚ) : Nat :=
  if b = 0 then (if 0 < a then usizeMax else 0)
  else ratToUsize (a / b)

/-- One clamped sample coordinate of the fingerprint loop:
`let mut x2 = x + i; if x2 >= cap { x2 = cap - 1 }` in checked `usize`
arithmetic.  `x + i` overflows past `usize::MAX`; `cap - 1` underflows when
`cap = 0`. -/
def clampCoord (v i cap : Nat) : Except CErr Nat :=
  if v + i > usizeMax then .error .panicked
  else if v + i ≥ cap then
    (if cap = 0 then .error .panicked else .ok (cap - 1))
  else .ok (v + i)

/-- The body of `for i in 0..2` in `get_cursor_id`: clamp the sample
coordinates against the representation size, query `colorAtX:y:`, and if a
color came back contribute `(r + g + b + a) * (255 << i) as f64` (`0`
otherwise). -/
def sampleContribution (rep : NSBitmapRep) (x y i : Nat) : Except CErr ℚ := do
  let x2 ← clampCoord x i (ratToUsize rep.size.1)
  let y2 ← clampCoord y i (ratToUsize rep.size.2)
  match rep.colorAt x2 y2 with
  | none => pure 0
  | some col => pure ((col.r + col.g + col.b + col.a) * ((255 <<< i : ℕ) : ℚ))

/-- `get_cursor_id`: resolve the current cursor, read hotspot, image, logical
size, TIFF representation and its size, accumulate
`size.width + size.height + hotspot.x + hotspot.y + rep_size.width +
rep_size.height`, map the hotspot into representation pixel space with
`(rep_size.width * hotspot.x / size.width) as usize` (and the height
analogue), add the two pixel samples, and return the handle paired with the
accumulator cast `as u64`. -/
def get_cursor_id (env : CursorEnv) : Except CErr (NSCursorHandle × Nat) := do
  let some c := env.cursor
    | throw (CErr.bail "Failed to call [NSCursor currentSystemCursor]")
  let hotspot := c.hotSpot
  let some img := c.image | throw (CErr.bail "Failed to call [NSCursor image]")
  let size := img.size
  if img.tiffNil then throw (CErr.bail "Failed to call [NSImage TIFFRepresentation]")
  let some rep := img.tiffRep
    | throw (CErr.bail "Failed to call [NSBitmapImageRep imageRepWithData]")
  let rep_size := rep.size
  let hcursor := size.1 + size.2 + hotspot.1 + hotspot.2 + rep_size.1 + rep_size.2
  let x := divCastUsize (rep_size.1 * hotspot.1) size.1
  let y := divCastUsize (rep_size.2 * hotspot.2) size.2
  let s0 ← sampleContribution rep x y 0
  let s1 ← sampleContribution rep x y 1
  pure (c, ratToU64 (hcursor + s0 + s1))

/-- `get_cursor`: read `CGSCurrentCursorSeed()`; if it equals `LATEST_SEED`
return `Ok(None)`; otherwise store the new seed (before fingerprinting, so it
is stored even when fingerprinting then fails), fingerprint, and return the
new identity.  The state (`LATEST_SEED`) is passed and returned explicitly. -/
def get_cursor (env : CursorEnv) (latest_seed : Int) :
    Int × Except CErr (Option Nat) :=
  if env.seed = latest_seed then (latest_seed, .ok none)
  else
    match get_cursor_id env with
    | .ok c => (env.seed, .ok (some c.2))
    | .error e => (env.seed, .error e)

/-- `reset_input_cache`: set `LATEST_SEED` back to `0`. -/
def reset_input_cache (_latest_seed : Int) : Int := 0

/-- The four bytes pushed for one readable pixel in `get_cursor_data`:
`(r * 255.) as u8` and the three analogues, in R, G, B, A order. -/
def pixelBytes (col : NSColorVal) : List Nat :=
  [ratToU8 (col.r * 255), ratToU8 (col.g * 255),
   ratToU8 (col.b * 255), ratToU8 (col.a * 255)]

/-- The nested pixel walk of `get_cursor_data`:
`for y in 0..(size.height as _) { for x in 0..(size.width as _) { ... } }`,
where the inferred cast target of the loop bounds is `i32` (the loop indices
are only ever re-cast, so Rust's integer fallback applies).  A `nil` color is
skipped, contributing no bytes; otherwise four bytes are appended. -/
def extractColors (rep : NSBitmapRep) (W H : Nat) : List Nat :=
  (List.range H).flatMap fun y =>
    (List.range W).flatMap fun x =>
      match rep.colorAt x y with
      | none => []
      | some col => pixelBytes col

/-- `get_cursor_data`: fingerprint the freshly resolved cursor, bail with
"cursor changed" unless it equals the caller-supplied identity, then walk the
first representation of the image over the *logical* image size and build the
`CursorData` snapshot.  (`[c image]` was already checked non-nil inside
`get_cursor_id`; messaging `nil` would yield a zero size and a `nil`
representations array, which the `none` branch mirrors.) -/
def get_cursor_data (env : CursorEnv) (hcursor : Nat) : Except CErr CursorData := do
  let cid ← get_cursor_id env
  let c := cid.1
  if hcursor ≠ cid.2 then throw (CErr.bail "cursor changed")
  let hotspot := c.hotSpot
  let (size, repsOpt) :=
    match c.image with
    | some img => (img.size, img.reps)
    | none => (((0 : ℚ), (0 : ℚ)), none)
  let some reps := repsOpt
    | throw (CErr.bail "Failed to call [NSImage representations]")
  match reps with
  | [] => throw (CErr.bail "Get empty [NSImage representations]")
  | rep :: _ =>
    pure { id := hcursor
           colors := extractColors rep (ratToI32 size.1).toNat (ratToI32 size.2).toNat
           hotx := ratToI32 hotspot.1
           hoty := ratToI32 hotspot.2
           width := ratToI32 size.1
           height := ratToI32 size.2 }

/-! ### Definitions following the spec's words (for refinement comparison) -/

/-- Modelled from the spec's words, for comparison with `sampleContribution`:
the spec claims sample `i` contributes `(r + g + b + a) * 255^i`.  Everything
except the weight matches the source's loop body. -/
def sampleContributionSpecWeight (rep : NSBitmapRep) (x y i : Nat) :
    Except CErr ℚ := do
  let x2 ← clampCoord x i (ratToUsize rep.size.1)
  let y2 ← clampCoord y i (ratToUsize rep.size.2)
  match rep.colorAt x2 y2 with
  | none => pure 0
  | some col => pure ((col.r + col.g + col.b + col.a) * ((255 : ℚ) ^ i))

/-- `get_cursor_id` as the spec describes it, differing from the source only
in the sample weight (`255^i` instead of `255 << i`). -/
def get_cursor_id_specWeight (env : CursorEnv) :
    Except CErr (NSCursorHandle × Nat) := do
  let some c := env.cursor
    | throw (CErr.bail "Failed to call [NSCursor currentSystemCursor]")
  let hotspot := c.hotSpot
  let some img := c.image | throw (CErr.bail "Failed to call [NSCursor image]")
  let size := img.size
  if img.tiffNil then throw (CErr.bail "Failed to call [NSImage TIFFRepresentation]")
  let some rep := img.tiffRep
    | throw (CErr.bail "Failed to call [NSBitmapImageRep imageRepWithData]")
  let rep_size := rep.size
  let hcursor := size.1 + size.2 + hotspot.1 + hotspot.2 + rep_size.1 + rep_size.2
  let x := divCastUsize (rep_size.1 * hotspot.1) size.1
  let y := divCastUsize (rep_size.2 * hotspot.2) size.2
  let s0 ← sampleContributionSpecWeight rep x y 0
  let s1 ← sampleContributionSpecWeight rep x y 1
  pure (c, ratToU64 (hcursor + s0 + s1))

/-- Modelled from the spec's words for extraction: read the RGBA channels of
every pixel of the W×H grid in row-major order, top row first, four bytes per
pixel (no pixel skipped). -/
def specRowMajor (rep : NSBitmapRep) (W H : Nat) : List Nat :=
  (List.range H).flatMap fun y =>
    (List.range W).flatMap fun x =>
      pixelBytes ((rep.colorAt x y).getD ⟨0, 0, 0, 0⟩)

/-! ### Concrete fixtures

Small concrete environments used to instantiate the theorems below. -/

/-- Fully opaque black, the pixel color of the spec's end-to-end cursor A. -/
def blackOpaque : NSColorVal := ⟨0, 0, 0, 1⟩

/-- A 16×16 representation whose every pixel is opaque black. -/
def repA : NSBitmapRep := ⟨(16, 16), fun _ _ => some blackOpaque⟩

/-- Cursor A of the spec's end-to-end scenario: logical size 16×16, hotspot
(0,0), representation `repA`. -/
def imgA : NSImage := ⟨(16, 16), false, some repA, some [repA]⟩

def curA : NSCursorHandle := ⟨(0, 0), some imgA⟩

def envA : CursorEnv := ⟨1, some curA⟩

/-- A 2×2 all-black representation attached to a 1×1 logical image: the
logical and representation sizes disagree. -/
def repB : NSBitmapRep := ⟨(2, 2), fun _ _ => some blackOpaque⟩

def imgB : NSImage := ⟨(1, 1), false, some repB, some [repB]⟩

def curB : NSCursorHandle := ⟨(0, 0), some imgB⟩

def envB : CursorEnv := ⟨1, some curB⟩

/-- A cursor whose logical image size is 0×0 while its representation is
2×2 and fully sampleable. -/
def repZ : NSBitmapRep := ⟨(2, 2), fun _ _ => some blackOpaque⟩

def imgZ : NSImage := ⟨(0, 0), false, some repZ, some [repZ]⟩

def curZ : NSCursorHandle := ⟨(0, 0), some imgZ⟩

def envZ : CursorEnv := ⟨1, some curZ⟩

/-- A 2×2 cursor whose pixel (1,1) is not color-sampleable. -/
def repC : NSBitmapRep :=
  ⟨(2, 2), fun x y => if x = 1 && y = 1 then none else some blackOpaque⟩

def imgC : NSImage := ⟨(2, 2), false, some repC, some [repC]⟩

def curC : NSCursorHandle := ⟨(0, 0), some imgC⟩

def envC : CursorEnv := ⟨1, some curC⟩

/-- A cursor whose representation width is reported as 0. -/
def repP : NSBitmapRep := ⟨(0, 2), fun _ _ => some blackOpaque⟩

def imgP : NSImage := ⟨(4, 4), false, some repP, some [repP]⟩

def curP : NSCursorHandle := ⟨(1, 1), some imgP⟩

def envP : CursorEnv := ⟨1, some curP⟩

/-- A second, independently constructed handle with the same observed data
as cursor A (same geometry, same sampled colors), under a different seed. -/
def repA2 : NSBitmapRep := ⟨(16, 16), fun _ _ => some ⟨0, 0, 0, 1⟩⟩

def imgA2 : NSImage := ⟨(16, 16), false, some repA2, some [repA2]⟩

def curA2 : NSCursorHandle := ⟨(0, 0), some imgA2⟩

def envA2 : CursorEnv := ⟨2, some curA2⟩

/-- An environment whose OS cursor seed is 0, the value `reset_input_cache`
stores as sentinel. -/
def envSeed0 : CursorEnv := ⟨0, none⟩

/-- An environment where the seed changed but no cursor can be resolved. -/
def envNoCursor : CursorEnv := ⟨1, none⟩

/-! ### Helper lemmas on `Except` -/

theorem except_bind_ok {ε α β : Type} (a : α) (f : α → Except ε β) :
    (Except.ok a >>= f) = f a := rfl

theorem except_bind_error {ε α β : Type} (e : ε) (f : α → Except ε β) :
    ((Except.error e : Except ε α) >>= f) = Except.error e := rfl

theorem except_pure_eq {ε α : Type} (a : α) : (pure a : Except ε α) = Except.ok a := rfl

theorem except_throw_eq {ε α : Type} (e : ε) :
    (throw e : Except ε α) = Except.error e := rfl

theorem except_map_ok {ε α β : Type} (f : α → β) (a : α) :
    (Except.ok a : Except ε α).map f = Except.ok (f a) := rfl

theorem except_map_error {ε α β : Type} (f : α → β) (e : ε) :
    (Except.error e : Except ε α).map f = Except.error e := rfl

/-- The stored seed after any `get_cursor` call is the current OS seed
(on the fast path they already agree; on the slow path it is written before
fingerprinting, so it is the new seed even when fingerprinting fails). -/
theorem get_cursor_fst (env : CursorEnv) (s : Int) : (get_cursor env s).1 = env.seed := by
  unfold get_cursor
  by_cases h : env.seed = s
  · simp [h]
  · cases hg : get_cursor_id env <;> simp [h, hg]

/-! ### Claim theorems -/

/-- C1: if the identity `get_cursor_data` recomputes from a freshly resolved
cursor handle does not equal the caller-supplied expected identity, the call
fails with the stale-cursor error `bail!("cursor changed")` and no
`CursorData` is constructed. -/
theorem c1_stale_cursor_guard (env : CursorEnv) (expected : Nat)
    (c : NSCursorHandle) (n : Nat)
    (hid : get_cursor_id env = Except.ok (c, n)) (hne : n ≠ expected) :
    get_cursor_data env expected = Except.error (CErr.bail "cursor changed") := by
  simp only [get_cursor_data, hid, except_bind_ok, except_throw_eq, if_pos (Ne.symm hne)]
  rfl

/-- Witness for C1: against `envA` (identity 829), requesting extraction with
the stale identity 0 fails with the stale-cursor error. -/
theorem c1_stale_cursor_guard_witness :
    get_cursor_data envA 0 = Except.error (CErr.bail "cursor changed") :=
  c1_stale_cursor_guard envA 0 curA 829 (by with_unfolding_all rfl) (by decide)

/-- C2 counterexample: the OS counter value 0 coincides with the sentinel
`reset_input_cache` stores, so the very next poll after a reset returns the
no-change result `Ok(None)` when the OS counter is 0 — refuting "the next
poll reports a change for every value the counter may hold". -/
theorem c2_counterexample :
    get_cursor envSeed0 (reset_input_cache 5) = (0, Except.ok none) := by
  with_unfolding_all rfl

/-- C2 (amended): after `reset_input_cache`, the next `get_cursor` reports a
change — never the no-change result — provided the OS counter is nonzero; it
stores the OS counter and returns the freshly computed identity when
fingerprinting succeeds.  (When the OS counter is exactly 0 it coincides with
the sentinel and the poll returns the no-change result, per the
counterexample.) -/
theorem c2_reset_forces_redetect (env : CursorEnv) (s : Int) (h : env.seed ≠ 0) :
    (get_cursor env (reset_input_cache s)).1 = env.seed ∧
    (get_cursor env (reset_input_cache s)).2 ≠ Except.ok none ∧
    (∀ c n, get_cursor_id env = Except.ok (c, n) →
      (get_cursor env (reset_input_cache s)).2 = Except.ok (some n)) := by
  refine ⟨get_cursor_fst env _, ?_, ?_⟩
  · unfold get_cursor reset_input_cache
    cases hg : get_cursor_id env <;> simp [h, hg]
  · intro c n hg
    unfold get_cursor reset_input_cache
    simp [h, hg]

/-- Witness for C2: with the OS counter at 1 ≠ 0, the poll right after a
reset returns the fresh identity of cursor A. -/
theorem c2_reset_forces_redetect_witness :
    (get_cursor envA (reset_input_cache 5)).2 = Except.ok (some 829) :=
  (c2_reset_forces_redetect envA 5 (by decide)).2.2 curA 829 (by with_unfolding_all rfl)

/-- C5 counterexample: `get_cursor` does have an error case — when the
counter differs from the stored value but no cursor can be resolved, the
fingerprint failure propagates out of the poll (with the new counter already
stored). -/
theorem c5_counterexample :
    get_cursor envNoCursor 0 =
      (1, Except.error (CErr.bail "Failed to call [NSCursor currentSystemCursor]")) := by
  with_unfolding_all rfl

/-- C5 (amended): whenever the current OS counter differs from the stored
value, the poll stores the new counter value (even when fingerprinting then
fails) and signals the detected change by returning the fresh identity when
fingerprinting succeeds; but the poll is not error-free — it propagates the
fingerprint error otherwise. -/
theorem c5_poll_on_change (env : CursorEnv) (s : Int) (h : env.seed ≠ s) :
    (get_cursor env s).1 = env.seed ∧
    (∀ c n, get_cursor_id env = Except.ok (c, n) →
        (get_cursor env s).2 = Except.ok (some n)) ∧
    (∀ e, get_cursor_id env = Except.error e →
        (get_cursor env s).2 = Except.error e) := by
  refine ⟨get_cursor_fst env s, ?_, ?_⟩
  · intro c n hg
    unfold get_cursor
    simp [h, hg]
  · intro e hg
    unfold get_cursor
    simp [h, hg]

/-- Witness for C5 (amended): concrete instantiation where the counter
differs (1 ≠ 0): the new counter 1 is stored and the resolver failure
propagates. -/
theorem c5_poll_on_change_witness :
    (get_cursor envNoCursor 0).1 = 1 ∧
    (get_cursor envNoCursor 0).2 =
      Except.error (CErr.bail "Failed to call [NSCursor currentSystemCursor]") :=
  ⟨(c5_poll_on_change envNoCursor 0 (by decide)).1,
   (c5_poll_on_change envNoCursor 0 (by decide)).2.2 _ (by with_unfolding_all rfl)⟩

/-- C6: when the current OS counter equals the stored value, `get_cursor`
returns the no-change result `Ok(None)` and leaves the stored counter
unchanged; the result is independent of all cursor data (no fingerprinting
or extraction work is observable); and of two consecutive polls under an
unchanged counter, the second always returns the no-change result. -/
theorem c6_fast_path_no_change (env : CursorEnv) (s : Int) :
    (env.seed = s → get_cursor env s = (s, Except.ok none)) ∧
    (∀ env2 : CursorEnv, env2.seed = env.seed → env.seed = s →
        get_cursor env2 s = get_cursor env s) ∧
    (get_cursor env ((get_cursor env s).1)).2 = Except.ok none := by
  refine ⟨fun h => by simp [get_cursor, h], ?_, ?_⟩
  · intro env2 h2 h
    simp [get_cursor, h, h2]
  · rw [get_cursor_fst]
    simp [get_cursor]

/-- Witness for C6: with the counter unchanged at 1, polling returns the
no-change result, and a second consecutive poll also returns it. -/
theorem c6_fast_path_no_change_witness :
    get_cursor envA 1 = (1, Except.ok none) ∧
    (get_cursor envA ((get_cursor envA 1).1)).2 = Except.ok none :=
  ⟨(c6_fast_path_no_change envA 1).1 rfl, (c6_fast_path_no_change envA 1).2.2⟩

/-- C3 counterexample: the source weights sample `i` by `255 << i`
(255, then 510), not by `255^i` (1, then 255) as the claim states: on the
all-black 16×16 cursor A the source computes identity 829 while the claim's
formula yields 320. -/
theorem c3_counterexample :
    (get_cursor_id envA).map Prod.snd = Except.ok 829 ∧
    (get_cursor_id_specWeight envA).map Prod.snd = Except.ok 320 ∧
    (829 : ℕ) ≠ 320 :=
  ⟨by with_unfolding_all rfl, by with_unfolding_all rfl, by decide⟩

/-- C3 (amended): for each sample offset `i`, the sum of the four color
channels of the sampled pixel is added weighted by `255 << i = 255 * 2^i`,
so the second sample's contribution is weighted exactly twice the first's
(510 versus 255), not roughly 255 times. -/
theorem c3_sample_weights (rep : NSBitmapRep) (x y i : Nat) (col : NSColorVal)
    (x2 y2 : Nat)
    (hx : clampCoord x i (ratToUsize rep.size.1) = Except.ok x2)
    (hy : clampCoord y i (ratToUsize rep.size.2) = Except.ok y2)
    (hc : rep.colorAt x2 y2 = some col) :
    sampleContribution rep x y i =
      Except.ok ((col.r + col.g + col.b + col.a) * (255 * 2 ^ i)) ∧
    ((255 : ℚ) * 2 ^ (1 : ℕ)) = 2 * (255 * 2 ^ (0 : ℕ)) := by
  constructor
  · have hw : ((255 <<< i : ℕ) : ℚ) = 255 * 2 ^ i := by
      rw [Nat.shiftLeft_eq]
      push_cast
      ring
    simp only [sampleContribution, hx, hy, except_bind_ok, hc, hw, except_pure_eq]
  · norm_num

/-- Witness for C3 (amended): on cursor A the second sample (offset 1, pixel
(1,1), opaque black) contributes `1 * 510 = 510`. -/
theorem c3_sample_weights_witness :
    sampleContribution repA 0 0 1 = Except.ok 510 ∧
    ((255 : ℚ) * 2 ^ (1 : ℕ)) = 2 * (255 * 2 ^ (0 : ℕ)) := by
  have h := c3_sample_weights repA 0 0 1 blackOpaque 1 1
    (by with_unfolding_all rfl) (by with_unfolding_all rfl) rfl
  refine ⟨h.1.trans ?_, h.2⟩
  norm_num [blackOpaque]

/-- Two sample loops over representations of equal size that agree on the
colors at the (successfully clamped) sample coordinates contribute
equally. -/
theorem sampleContribution_congr (r1 r2 : NSBitmapRep) (x y i : Nat)
    (hs : r1.size = r2.size)
    (hc : ∀ p q, clampCoord x i (ratToUsize r1.size.1) = Except.ok p →
        clampCoord y i (ratToUsize r1.size.2) = Except.ok q →
        r1.colorAt p q = r2.colorAt p q) :
    sampleContribution r1 x y i = sampleContribution r2 x y i := by
  unfold sampleContribution
  rw [← hs]
  cases hx : clampCoord x i (ratToUsize r1.size.1) with
  | error e => simp [except_bind_error]
  | ok p =>
    simp only [except_bind_ok]
    cases hy : clampCoord y i (ratToUsize r1.size.2) with
    | error e => simp [except_bind_error]
    | ok q =>
      simp only [except_bind_ok]
      rw [hc p q hx hy]

/-- C7: the fingerprint is a deterministic function of the cursor's observed
data: two handles with identical logical size, hotspot, representation size,
and identical sampled colors at the sampled pixel positions yield the same
64-bit identity (error outcomes also agree). -/
theorem c7_fingerprint_deterministic
    (e1 e2 : CursorEnv) (c1 c2 : NSCursorHandle) (i1 i2 : NSImage)
    (r1 r2 : NSBitmapRep)
    (h1 : e1.cursor = some c1) (h2 : e2.cursor = some c2)
    (hi1 : c1.image = some i1) (hi2 : c2.image = some i2)
    (ht1 : i1.tiffNil = false) (ht2 : i2.tiffNil = false)
    (hr1 : i1.tiffRep = some r1) (hr2 : i2.tiffRep = some r2)
    (hhot : c1.hotSpot = c2.hotSpot) (hsize : i1.size = i2.size)
    (hrsize : r1.size = r2.size)
    (hcol : ∀ i p q,
        clampCoord (divCastUsize (r1.size.1 * c1.hotSpot.1) i1.size.1) i
            (ratToUsize r1.size.1) = Except.ok p →
        clampCoord (divCastUsize (r1.size.2 * c1.hotSpot.2) i1.size.2) i
            (ratToUsize r1.size.2) = Except.ok q →
        r1.colorAt p q = r2.colorAt p q) :
    (get_cursor_id e1).map Prod.snd = (get_cursor_id e2).map Prod.snd := by
  unfold get_cursor_id
  simp only [h1, h2, hi1, hi2, ht1, ht2, hr1, hr2, Bool.false_eq_true, if_false]
  rw [← hhot, ← hsize, ← hrsize]
  rw [← sampleContribution_congr r1 r2 _ _ 0 hrsize (hcol 0),
      ← sampleContribution_congr r1 r2 _ _ 1 hrsize (hcol 1)]
  cases hs0 : sampleContribution r1 (divCastUsize (r1.size.1 * c1.hotSpot.1) i1.size.1)
      (divCastUsize (r1.size.2 * c1.hotSpot.2) i1.size.2) 0 with
  | error e => simp [except_bind_error, except_map_error]
  | ok v0 =>
    simp only [except_bind_ok]
    cases hs1 : sampleContribution r1 (divCastUsize (r1.size.1 * c1.hotSpot.1) i1.size.1)
        (divCastUsize (r1.size.2 * c1.hotSpot.2) i1.size.2) 1 with
    | error e => simp [except_bind_error, except_map_error]
    | ok v1 => simp [except_bind_ok, except_pure_eq, except_map_ok]

/-- Witness for C7: two independently built handles for the same visual
cursor (16×16, hotspot (0,0), all opaque black), observed under different
seeds, fingerprint identically. -/
theorem c7_fingerprint_deterministic_witness :
    (get_cursor_id envA).map Prod.snd = (get_cursor_id envA2).map Prod.snd :=
  c7_fingerprint_deterministic envA envA2 curA curA2 imgA imgA2 repA repA2
    rfl rfl rfl rfl rfl rfl rfl rfl rfl rfl rfl
    (fun _ _ _ _ _ => rfl)

/-! ### List helpers for the pixel walk -/

theorem flatMap_length_const {α : Type} (l : List α) (f : α → List ℕ) (k : ℕ)
    (h : ∀ a ∈ l, (f a).length = k) : (l.flatMap f).length = k * l.length := by
  induction l with
  | nil => simp
  | cons a t ih =>
    simp only [List.flatMap_cons, List.length_append, h a (by simp),
      List.length_cons]
    rw [ih (fun b hb => h b (by simp [hb]))]
    ring

theorem flatMap_length_filter {α : Type} (l : List α) (f : α → List ℕ)
    (p : α → Bool) (h : ∀ a ∈ l, (f a).length = if p a then 4 else 0) :
    (l.flatMap f).length = 4 * (l.filter p).length := by
  induction l with
  | nil => simp
  | cons a t ih =>
    simp only [List.flatMap_cons, List.length_append, h a (by simp),
      List.filter_cons]
    rw [ih (fun b hb => h b (by simp [hb]))]
    cases hp : p a
    · simp [hp]
    · simp [hp]
      ring

theorem flatMap_congr_mem {α β : Type} (l : List α) (f g : α → List β)
    (h : ∀ a ∈ l, f a = g a) : l.flatMap f = l.flatMap g := by
  induction l with
  | nil => rfl
  | cons a t ih =>
    simp only [List.flatMap_cons, h a (by simp),
      ih (fun b hb => h b (by simp [hb]))]

/-- When every pixel of the W×H grid is color-sampleable, the source's pixel
walk produces exactly the spec's row-major walk (no pixel skipped). -/
theorem extractColors_all_sampleable (rep : NSBitmapRep) (W H : Nat)
    (hall : ∀ x y, x < W → y < H → (rep.colorAt x y).isSome = true) :
    extractColors rep W H = specRowMajor rep W H := by
  unfold extractColors specRowMajor
  refine flatMap_congr_mem _ _ _ (fun y hy => ?_)
  refine flatMap_congr_mem _ _ _ (fun x hx => ?_)
  have hsome := hall x y (List.mem_range.mp hx) (List.mem_range.mp hy)
  cases hc : rep.colorAt x y with
  | none => rw [hc] at hsome; simp at hsome
  | some col => simp [hc]

/-- The spec's row-major walk over a W×H grid is always 4·W·H bytes. -/
theorem specRowMajor_length (rep : NSBitmapRep) (W H : Nat) :
    (specRowMajor rep W H).length = 4 * W * H := by
  unfold specRowMajor
  have hrow : ∀ y : ℕ, ((List.range W).flatMap fun x =>
      pixelBytes ((rep.colorAt x y).getD ⟨0, 0, 0, 0⟩)).length = 4 * W := by
    intro y
    rw [flatMap_length_const (List.range W)
      (fun x => pixelBytes ((rep.colorAt x y).getD ⟨0, 0, 0, 0⟩)) 4
      (fun x _ => rfl), List.length_range]
  rw [flatMap_length_const _ _ (4 * W) (fun y _ => hrow y), List.length_range]

/-- The success path of `get_cursor_data`: when the recomputed identity
matches, the image is present and the representations array is non-empty,
extraction returns the snapshot built from the logical size, the hotspot and
the pixel walk over the first representation. -/
theorem get_cursor_data_ok (env : CursorEnv) (c : NSCursorHandle) (n : Nat)
    (img : NSImage) (rep : NSBitmapRep) (rest : List NSBitmapRep)
    (hid : get_cursor_id env = Except.ok (c, n)) (himg : c.image = some img)
    (hreps : img.reps = some (rep :: rest)) :
    get_cursor_data env n =
      Except.ok
        { id := n
          colors := extractColors rep (ratToI32 img.size.1).toNat
            (ratToI32 img.size.2).toNat
          hotx := ratToI32 c.hotSpot.1
          hoty := ratToI32 c.hotSpot.2
          width := ratToI32 img.size.1
          height := ratToI32 img.size.2 } := by
  simp [get_cursor_data, hid, except_bind_ok, himg, hreps, except_pure_eq]

/-- C4 counterexample: the walk is over the logical image size, not the
representation size.  For `envB` the representation is 2×2 and fully
sampleable, yet the returned buffer holds 4 bytes (one logical 1×1 pixel),
not `4 * 2 * 2 = 16`. -/
theorem c4_counterexample :
    (get_cursor_data envB 771).map (fun d => d.colors.length) = Except.ok 4 ∧
    ratToUsize repB.size.1 = 2 ∧ ratToUsize repB.size.2 = 2 ∧
    repB.colorAt = (fun _ _ => some blackOpaque) ∧ (4 : ℕ) ≠ 4 * 2 * 2 :=
  ⟨by with_unfolding_all rfl, by with_unfolding_all rfl,
   by with_unfolding_all rfl, rfl, by decide⟩

/-- C4 (amended): on an identity match, extraction walks every pixel of the
*logical* W×H grid (sizes truncated to integer) in row-major order, top row
first; when every pixel of that grid is color-sampleable the buffer is the
spec's row-major byte sequence of exactly `4 * W * H` bytes, for the logical
W and H (not the representation size). -/
theorem c4_rowmajor_extraction (env : CursorEnv) (c : NSCursorHandle) (n : Nat)
    (img : NSImage) (rep : NSBitmapRep) (rest : List NSBitmapRep)
    (hid : get_cursor_id env = Except.ok (c, n)) (himg : c.image = some img)
    (hreps : img.reps = some (rep :: rest))
    (hall : ∀ x y, x < (ratToI32 img.size.1).toNat →
        y < (ratToI32 img.size.2).toNat → (rep.colorAt x y).isSome = true) :
    (get_cursor_data env n).map CursorData.colors =
      Except.ok (specRowMajor rep (ratToI32 img.size.1).toNat
        (ratToI32 img.size.2).toNat) ∧
    (get_cursor_data env n).map (fun d => d.colors.length) =
      Except.ok (4 * (ratToI32 img.size.1).toNat * (ratToI32 img.size.2).toNat) := by
  rw [get_cursor_data_ok env c n img rep rest hid himg hreps]
  constructor
  · rw [except_map_ok]
    simp only [extractColors_all_sampleable _ _ _ hall]
  · rw [except_map_ok]
    simp only [extractColors_all_sampleable _ _ _ hall, specRowMajor_length]

/-- Witness for C4 (amended): cursor A (16×16 logical, fully sampleable)
yields exactly `4 * 16 * 16 = 1024` bytes. -/
theorem c4_rowmajor_extraction_witness :
    (get_cursor_data envA 829).map (fun d => d.colors.length) = Except.ok 1024 :=
  ((c4_rowmajor_extraction envA curA 829 imgA repA [] (by with_unfolding_all rfl)
      rfl rfl (fun _ _ _ _ => rfl)).2).trans (by with_unfolding_all rfl)

/-- C8: on success, the returned `CursorData` carries the caller-supplied
identity in `id`, the resolved cursor's hotspot in `hotx`/`hoty`, and the
*logical* image size in `width`/`height` (not the representation size). -/
theorem c8_snapshot_fields (env : CursorEnv) (c : NSCursorHandle) (n : Nat)
    (img : NSImage) (rep : NSBitmapRep) (rest : List NSBitmapRep)
    (hid : get_cursor_id env = Except.ok (c, n)) (himg : c.image = some img)
    (hreps : img.reps = some (rep :: rest)) :
    get_cursor_data env n =
      Except.ok
        { id := n
          colors := extractColors rep (ratToI32 img.size.1).toNat
            (ratToI32 img.size.2).toNat
          hotx := ratToI32 c.hotSpot.1
          hoty := ratToI32 c.hotSpot.2
          width := ratToI32 img.size.1
          height := ratToI32 img.size.2 } :=
  get_cursor_data_ok env c n img rep rest hid himg hreps

/-- Witness for C8: on `envB`, whose logical size (1×1) differs from its
representation size (2×2), the snapshot carries the supplied identity 771,
hotspot (0,0), and width/height 1 — the logical size, not the representation
size 2. -/
theorem c8_snapshot_fields_witness :
    get_cursor_data envB 771 =
      Except.ok { id := 771, colors := [0, 0, 0, 255], hotx := 0, hoty := 0,
                  width := 1, height := 1 } ∧
    ratToI32 repB.size.1 = 2 :=
  ⟨(c8_snapshot_fields envB curB 771 imgB repB [] (by with_unfolding_all rfl)
      rfl rfl).trans (by with_unfolding_all rfl),
   by with_unfolding_all rfl⟩

/-- C9: a pixel whose color cannot be read contributes no bytes at all: the
buffer length is exactly four times the number of sampleable pixels of the
logical grid (so it is shorter than `4 * width * height` whenever a pixel is
skipped, with no zero-filling). -/
theorem c9_skipped_pixels (env : CursorEnv) (c : NSCursorHandle) (n : Nat)
    (img : NSImage) (rep : NSBitmapRep) (rest : List NSBitmapRep)
    (hid : get_cursor_id env = Except.ok (c, n)) (himg : c.image = some img)
    (hreps : img.reps = some (rep :: rest)) :
    (get_cursor_data env n).map (fun d => d.colors.length) =
      Except.ok (((List.range (ratToI32 img.size.2).toNat).map fun y =>
        4 * ((List.range (ratToI32 img.size.1).toNat).filter
          fun x => (rep.colorAt x y).isSome).length).sum) := by
  rw [get_cursor_data_ok env c n img rep rest hid himg hreps, except_map_ok]
  congr 1
  unfold extractColors
  rw [List.length_flatMap]
  congr 1
  refine List.map_congr_left (fun y _ => ?_)
  simp only [Function.comp_apply]
  refine flatMap_length_filter _ _ _ (fun x _ => ?_)
  cases hc : rep.colorAt x y <;> simp [hc, pixelBytes]

/-- Witness for C9: on `envC` (2×2 logical grid, pixel (1,1) unreadable) the
buffer is 12 bytes — three sampleable pixels times four bytes, shorter than
`4 * 2 * 2 = 16`. -/
theorem c9_skipped_pixels_witness :
    (get_cursor_data envC 263).map (fun d => d.colors.length) = Except.ok 12 :=
  (c9_skipped_pixels envC curC 263 imgC repC [] (by with_unfolding_all rfl)
      rfl rfl).trans (by with_unfolding_all rfl)

/-! ### Panic analysis of the fingerprint loop (C10) -/

theorem ratToUsize_le (q : ℚ) : ratToUsize q ≤ usizeMax := min_le_right _ _

theorem divCastUsize_le (a b : ℚ) : divCastUsize a b ≤ usizeMax := by
  unfold divCastUsize
  split
  · split
    · exact le_refl _
    · exact Nat.zero_le _
  · exact ratToUsize_le _

/-- With a zero clamping bound the loop body underflows at `cap - 1`. -/
theorem clampCoord_cap_zero (v i : Nat) (hv : v + i ≤ usizeMax) :
    clampCoord v i 0 = Except.error CErr.panicked := by
  unfold clampCoord
  rw [if_neg (by omega), if_pos (Nat.zero_le _), if_pos rfl]

/-- With a positive clamping bound and no `usize` overflow at `v + i` the
loop body yields the clamped coordinate. -/
theorem clampCoord_ok (v i cap : Nat) (hv : v + i ≤ usizeMax) (hcap : 1 ≤ cap) :
    clampCoord v i cap = Except.ok (if v + i ≥ cap then cap - 1 else v + i) := by
  unfold clampCoord
  rw [if_neg (by omega)]
  by_cases h : v + i ≥ cap
  · rw [if_pos h, if_neg (by omega), if_pos h]
  · rw [if_neg h, if_neg h]

/-- A sample iteration panics whenever either truncated representation
dimension is zero. -/
theorem sampleContribution_cap_zero (rep : NSBitmapRep) (x y i : Nat)
    (hx : x + i ≤ usizeMax) (hy : y + i ≤ usizeMax)
    (h : ratToUsize rep.size.1 = 0 ∨ ratToUsize rep.size.2 = 0) :
    sampleContribution rep x y i = Except.error CErr.panicked := by
  unfold sampleContribution
  rcases h with hw | hh
  · rw [hw, clampCoord_cap_zero x i hx, except_bind_error]
  · by_cases hw0 : ratToUsize rep.size.1 = 0
    · rw [hw0, clampCoord_cap_zero x i hx, except_bind_error]
    · rw [clampCoord_ok x i _ hx (Nat.one_le_iff_ne_zero.mpr hw0), except_bind_ok,
        hh, clampCoord_cap_zero y i hy, except_bind_error]

/-- A sample iteration cannot fail when both truncated representation
dimensions are at least 1 and `v + i` stays within `usize`. -/
theorem sampleContribution_ok (rep : NSBitmapRep) (x y i : Nat)
    (hx : x + i ≤ usizeMax) (hy : y + i ≤ usizeMax)
    (hw : 1 ≤ ratToUsize rep.size.1) (hh : 1 ≤ ratToUsize rep.size.2) :
    ∃ v, sampleContribution rep x y i = Except.ok v := by
  unfold sampleContribution
  rw [clampCoord_ok x i _ hx hw, except_bind_ok, clampCoord_ok y i _ hy hh,
    except_bind_ok]
  cases rep.colorAt (if x + i ≥ ratToUsize rep.size.1 then ratToUsize rep.size.1 - 1
      else x + i)
    (if y + i ≥ ratToUsize rep.size.2 then ratToUsize rep.size.2 - 1 else y + i) with
  | none => exact ⟨0, rfl⟩
  | some col => exact ⟨_, rfl⟩

/-- C10 counterexample: zero *logical* width and height do not make the
fingerprint panic — `envZ` has logical size 0×0 (so the hotspot mapping
divides by zero) yet `get_cursor_id` succeeds, because `f64` division by
zero yields `±∞`/`NaN`, which the saturating `as usize` cast absorbs.  This
refutes the claimed necessity of nonzero logical dimensions for
panic-freedom. -/
theorem c10_counterexample :
    (get_cursor_id envZ).map Prod.snd = Except.ok 769 ∧ imgZ.size = (0, 0) :=
  ⟨by with_unfolding_all rfl, rfl⟩

/-- C10 (amended): once the cursor, image and TIFF representation resolve,
`get_cursor_id` panics (checked `usize` underflow at
`rep_size.width as usize - 1` or the height analogue) whenever either
representation dimension truncates to 0; it is panic-free whenever both
truncated representation dimensions are at least 1 and the computed sample
base coordinates stay one below `usize::MAX` (the saturating cast produces
`usize::MAX` — and `x + 1` then overflows — only via the zero-guard-free
division, e.g. for a zero logical dimension with a positive hotspot
coordinate; a zero logical dimension alone does not force a panic). -/
theorem c10_panic_conditions (env : CursorEnv) (c : NSCursorHandle)
    (img : NSImage) (rep : NSBitmapRep)
    (h1 : env.cursor = some c) (h2 : c.image = some img)
    (h3 : img.tiffNil = false) (h4 : img.tiffRep = some rep) :
    (ratToUsize rep.size.1 = 0 ∨ ratToUsize rep.size.2 = 0 →
        get_cursor_id env = Except.error CErr.panicked) ∧
    (1 ≤ ratToUsize rep.size.1 → 1 ≤ ratToUsize rep.size.2 →
        divCastUsize (rep.size.1 * c.hotSpot.1) img.size.1 + 1 ≤ usizeMax →
        divCastUsize (rep.size.2 * c.hotSpot.2) img.size.2 + 1 ≤ usizeMax →
        get_cursor_id env ≠ Except.error CErr.panicked) := by
  have hxle := divCastUsize_le (rep.size.1 * c.hotSpot.1) img.size.1
  have hyle := divCastUsize_le (rep.size.2 * c.hotSpot.2) img.size.2
  constructor
  · intro h
    simp only [get_cursor_id, h1, h2, h3, h4, Bool.false_eq_true, if_false]
    rw [sampleContribution_cap_zero _ _ _ 0 (by omega) (by omega) h,
      except_bind_error]
    rfl
  · intro hw hh hx1 hy1
    simp only [get_cursor_id, h1, h2, h3, h4, Bool.false_eq_true, if_false]
    obtain ⟨v0, e0⟩ := sampleContribution_ok rep
      (divCastUsize (rep.size.1 * c.hotSpot.1) img.size.1)
      (divCastUsize (rep.size.2 * c.hotSpot.2) img.size.2) 0
      (by omega) (by omega) hw hh
    obtain ⟨v1, e1⟩ := sampleContribution_ok rep
      (divCastUsize (rep.size.1 * c.hotSpot.1) img.size.1)
      (divCastUsize (rep.size.2 * c.hotSpot.2) img.size.2) 1 hx1 hy1 hw hh
    rw [e0, except_bind_ok, e1, except_bind_ok, except_pure_eq]
    simp

/-- Witness for C10 (amended): `envP`, whose representation width truncates
to 0, panics; cursor A, with 16×16 representation and in-range sample
coordinates, does not. -/
theorem c10_panic_conditions_witness :
    get_cursor_id envP = Except.error CErr.panicked ∧
    get_cursor_id envA ≠ Except.error CErr.panicked :=
  ⟨(c10_panic_conditions envP curP imgP repP rfl rfl rfl rfl).1
      (Or.inl (by with_unfolding_all rfl)),
   (c10_panic_conditions envA curA imgA repA rfl rfl rfl rfl).2
      (by with_unfolding_all decide) (by with_unfolding_all decide)
      (by with_unfolding_all decide) (by with_unfolding_all decide)⟩

end RustdeskCursor
